import Mathlib

/-
Verification of the container-backed execution environment of this
repository (src/app/docker_env.py, src/app/container.py) against its
natural-language specification.

Shallow embedding conventions:
* The docker daemon ("runtime") is a seam: its replies are supplied by a
  `World` record, and the calls the code issues to it are recorded as a
  `List RCall` trace.
* Machine strings are Lean `String`; byte sequences are `List Nat`
  (each element one byte, 0..255); decoded text is produced by an
  explicit UTF-8 decoder with U+FFFD replacement, mirroring Python's
  `bytes.decode("utf-8", errors="replace")`.
* Python exceptions are the `PyExc` type; a Python function that can
  raise is embedded as returning `Except PyExc _`.
-/

/-- A Python-level exception (only the distinctions the code makes matter). -/
inductive PyExc where
  | valueError : PyExc
  | apiError (msg : String) : PyExc
  | ioError (msg : String) : PyExc
deriving DecidableEq, Repr

deriving instance DecidableEq for Except

/-- Reply of the runtime to one `exec_run` call: the process exit code and
the combined stdout+stderr byte stream. -/
structure ExecReply where
  exitCode : Int
  output : List Nat
deriving DecidableEq, Repr

/-- The dictionary `{"returncode": ..., "output": ...}` returned by
`DockerEnvironment._execute` (output already decoded to text). -/
structure PyResult where
  returncode : Int
  output : String
deriving DecidableEq, Repr

/-- One call issued to the container runtime, recorded for trace reasoning. -/
inductive RCall where
  | create (name image : String) : RCall
  | start (id : String) : RCall
  | stop (id : String) (timeout : Nat) : RCall
  | reload (id : String) : RCall
  | getContainer (id : String) : RCall
  | execRun (id : String) (cmd : String) : RCall
  | getArchive (id : String) (path : String) : RCall
  | putArchive (id : String) (dir : String) : RCall
deriving DecidableEq, Repr

/-- `DockerConfig` dataclass of src/app/docker_env.py. -/
structure DockerConfig where
  image : String := "python:3.13"
  cwd : String := "/tmp"
  timeout : Nat := 120
deriving DecidableEq, Repr

/-- The per-instance state of a `DockerEnvironment` (or its attach-mode
subclass): the sandbox identity and the stored config.  The code stores no
lifecycle flag of any kind (no "released" marker), which this structure
reflects. -/
structure PyEnv where
  container_id : String
  config : DockerConfig := {}
deriving DecidableEq, Repr

/-- Pending state of the incremental UTF-8 decoder: either no sequence is
in progress, or `expect acc need lo hi` — `need` continuation bytes are
still required, the value accumulated so far is `acc`, and the next byte
is admissible exactly when it lies in `[lo, hi]` (the restricted first
ranges after 0xE0/0xED/0xF0/0xF4 rule out overlong forms, surrogates and
code points beyond U+10FFFF, as CPython's decoder does). -/
inductive Utf8State where
  | clean : Utf8State
  | expect (acc need lo hi : Nat) : Utf8State
deriving DecidableEq, Repr

/-- Classify a byte that begins a new sequence (decoder in the clean
state), emitting either the code point, a replacement character, or
opening a multi-byte sequence. -/
def utf8Start (b : Nat) : List Nat × Utf8State :=
  if b ≤ 0x7F then ([b], .clean)
  else if b ≤ 0xC1 then ([0xFFFD], .clean)
  else if b ≤ 0xDF then ([], .expect (b - 0xC0) 1 0x80 0xBF)
  else if b = 0xE0 then ([], .expect 0 2 0xA0 0xBF)
  else if b = 0xED then ([], .expect 0xD 2 0x80 0x9F)
  else if b ≤ 0xEF then ([], .expect (b - 0xE0) 2 0x80 0xBF)
  else if b = 0xF0 then ([], .expect 0 3 0x90 0xBF)
  else if b ≤ 0xF3 then ([], .expect (b - 0xF0) 3 0x80 0xBF)
  else if b = 0xF4 then ([], .expect 4 3 0x80 0x8F)
  else ([0xFFFD], .clean)

/-- Feed one byte to the decoder.  An inadmissible byte inside a pending
sequence yields one U+FFFD for the maximal invalid subpart and is then
reprocessed as the start of a new sequence. -/
def utf8Step : Utf8State → Nat → List Nat × Utf8State
  | .clean, b => utf8Start b
  | .expect acc need lo hi, b =>
    if lo ≤ b ∧ b ≤ hi then
      if need = 1 then ([acc * 0x40 + (b - 0x80)], .clean)
      else ([], .expect (acc * 0x40 + (b - 0x80)) (need - 1) 0x80 0xBF)
    else (0xFFFD :: (utf8Start b).1, (utf8Start b).2)

/-- Run the decoder over a byte list; a sequence still pending at the end
of input is one maximal invalid subpart, replaced by a single U+FFFD. -/
def utf8Run (s : Utf8State) : List Nat → List Nat
  | [] =>
    match s with
    | .clean => []
    | .expect _ _ _ _ => [0xFFFD]
  | b :: bs => (utf8Step s b).1 ++ utf8Run (utf8Step s b).2 bs

/-- UTF-8 decoding with replacement, as performed by Python's
`bytes.decode("utf-8", errors="replace")`: every maximal invalid
subsequence is replaced by a single U+FFFD, valid sequences decode to
their code point.  Total on all byte lists — the decode step never
fails. -/
def utf8DecodeReplace (bs : List Nat) : List Nat :=
  utf8Run .clean bs

/-- Code points to a Lean string (the decoder only emits Unicode scalar
values, so `Char.ofNat` is faithful here). -/
def codePointsToString (cps : List Nat) : String :=
  String.mk (cps.map Char.ofNat)

/-- The text Python obtains from `bytes.decode("utf-8", errors="replace")`. -/
def decodeReplace (bs : List Nat) : String :=
  codePointsToString (utf8DecodeReplace bs)

example : utf8DecodeReplace [0x41, 0xFF, 0x42] = [0x41, 0xFFFD, 0x42] := by decide
example : utf8DecodeReplace [0xC3, 0xA9] = [0xE9] := by decide
example : utf8DecodeReplace [0xE0, 0xA0] = [0xFFFD] := by decide
example : utf8DecodeReplace [0xE0, 0x80, 0x80] = [0xFFFD, 0xFFFD, 0xFFFD] := by decide
example : utf8DecodeReplace [0xF0, 0x28] = [0xFFFD, 0x28] := by decide
example : utf8DecodeReplace [0xF4, 0x90, 0x80, 0x80] =
    [0xFFFD, 0xFFFD, 0xFFFD, 0xFFFD] := by decide
example : decodeReplace [0x68, 0x69] = "hi" := by decide

/-- A Unicode scalar value: below 0x110000 and not a surrogate. -/
def isScalar (c : Nat) : Prop := c < 0x110000 ∧ (c < 0xD800 ∨ 0xE000 ≤ c)

/-- Invariant on decoder states: every admissible completion of a pending
sequence denotes a Unicode scalar value. -/
def utf8StateOK : Utf8State → Prop
  | .clean => True
  | .expect acc need lo hi =>
    0x80 ≤ lo ∧ lo ≤ hi ∧ hi ≤ 0xBF ∧
    ((need = 1 ∧ acc * 0x40 + (hi - 0x80) < 0x110000 ∧
        (acc * 0x40 + (hi - 0x80) < 0xD800 ∨ 0xE000 ≤ acc * 0x40 + (lo - 0x80))) ∨
     (need = 2 ∧ acc * 0x1000 + (hi - 0x80) * 0x40 + 0x3F < 0x110000 ∧
        (acc * 0x1000 + (hi - 0x80) * 0x40 + 0x3F < 0xD800 ∨
          0xE000 ≤ acc * 0x1000 + (lo - 0x80) * 0x40)) ∨
     (need = 3 ∧ acc * 0x40000 + (hi - 0x80) * 0x1000 + 0xFFF < 0x110000 ∧
        (acc * 0x40000 + (hi - 0x80) * 0x1000 + 0xFFF < 0xD800 ∨
          0xE000 ≤ acc * 0x40000 + (lo - 0x80) * 0x1000)))

set_option maxHeartbeats 2000000 in
lemma utf8Start_ok (b : Nat) :
    utf8StateOK (utf8Start b).2 ∧ ∀ c ∈ (utf8Start b).1, isScalar c := by
  unfold utf8Start
  split_ifs <;> refine ⟨?_, fun c hc => ?_⟩ <;>
    simp_all only [utf8StateOK, isScalar, List.mem_singleton, List.not_mem_nil,
      true_and, and_true] <;>
    first | trivial | omega

lemma utf8Step_ok (s : Utf8State) (b : Nat) (hs : utf8StateOK s) :
    utf8StateOK (utf8Step s b).2 ∧ ∀ c ∈ (utf8Step s b).1, isScalar c := by
  cases s with
  | clean => exact utf8Start_ok b
  | expect acc need lo hi =>
    simp only [utf8Step]
    obtain ⟨h1, h2, h3, h4⟩ := hs
    split_ifs with hin hone
    · rcases h4 with ⟨hn, hb⟩ | ⟨hn, hb⟩ | ⟨hn, hb⟩
      · refine ⟨trivial, fun c hc => ?_⟩
        simp only [List.mem_singleton] at hc
        simp only [isScalar]
        omega
      · omega
      · omega
    · refine ⟨⟨by omega, by omega, by omega, ?_⟩, fun c hc => by cases hc⟩
      rcases h4 with ⟨hn, hb⟩ | ⟨hn, hb⟩ | ⟨hn, hb⟩
      · omega
      · exact Or.inl ⟨by omega, by omega, by omega⟩
      · exact Or.inr (Or.inl ⟨by omega, by omega, by omega⟩)
    · have h := utf8Start_ok b
      refine ⟨h.1, fun c hc => ?_⟩
      rcases List.mem_cons.mp hc with rfl | hc2
      · exact ⟨by omega, by omega⟩
      · exact h.2 c hc2

lemma utf8Run_ok (bs : List Nat) :
    ∀ s, utf8StateOK s → ∀ c ∈ utf8Run s bs, isScalar c := by
  induction bs with
  | nil =>
    intro s hs c hc
    cases s with
    | clean => simp [utf8Run] at hc
    | expect acc need lo hi =>
      simp only [utf8Run, List.mem_singleton] at hc
      subst hc
      exact ⟨by omega, by omega⟩
  | cons b bs ih =>
    intro s hs c hc
    simp only [utf8Run, List.mem_append] at hc
    rcases hc with hc | hc
    · exact (utf8Step_ok s b hs).2 c hc
    · exact ih _ (utf8Step_ok s b hs).1 c hc

/-- Every code point emitted by the replacement decoder is a Unicode
scalar value — the decoded result is always well-formed text. -/
lemma utf8DecodeReplace_scalar (bs : List Nat) :
    ∀ c ∈ utf8DecodeReplace bs, isScalar c :=
  utf8Run_ok bs .clean trivial

/-
## Command construction (src/app/docker_env.py)

The code builds every in-sandbox shell line by Python f-string
interpolation with no quoting/escaping; the builders below are literal
transcriptions of those f-strings.
-/

/-- `f"bash -lc '{command}'"` — the wrapper `_execute` puts around every
command (docker_env.py line 84). -/
def wrapCmd (command : String) : String :=
  "bash -lc '" ++ command ++ "'"

/-- `f"test -e '{path}'"` — inner command built by `exists`
(docker_env.py line 156). -/
def testECmd (path : String) : String :=
  "test -e '" ++ path ++ "'"

/-- `f"test -d '{path}'"` — inner command built by `is_directory`
(docker_env.py line 161). -/
def testDCmd (path : String) : String :=
  "test -d '" ++ path ++ "'"

/-- `f"cat {path}"` — inner command built by `read_file`
(docker_env.py line 209). -/
def catCmd (path : String) : String :=
  "cat " ++ path

/-- `f"ls -la {path}"` — inner command built by `view_directory`. -/
def lsCmd (path : String) : String :=
  "ls -la " ++ path

/-- `f"export {key}={value}"` content of `update_env_variables`'s
exec_run line (already wrapped there, docker_env.py line 92). -/
def exportCmd (key value : String) : String :=
  "export " ++ key ++ "=" ++ value

/-- `f"bash -lc 'echo {command} >> /home/.bash_history'"` — the literal
argument `save_command` passes to `_execute` (which wraps it a second
time, docker_env.py line 99). -/
def histCmd (command : String) : String :=
  "bash -lc 'echo " ++ command ++ " >> /home/.bash_history'"

/-- `f"tmpfile-{t}.tmp"` — per-call local temporary file name used by
`write_file` (t is `int(time.time())`, docker_env.py line 181). -/
def tmpFileName (t : Nat) : String :=
  "tmpfile-" ++ toString t ++ ".tmp"

/-- `f"mv /tmp/{tmp_file} {path}"` — the rename command `write_file`
issues after staging the archive in /tmp (docker_env.py line 202). -/
def mvCmd (tmpFile path : String) : String :=
  "mv /tmp/" ++ tmpFile ++ " " ++ path

/-
## The runtime seam

`World` supplies the replies of everything outside the code under
verification: the docker daemon's answers and the outcomes of the two
fallible local steps of `write_file` (archive creation and archive
upload).  `tar_tools.create_tar_from_filename` lives in
`swe_lib/environment/tar_tools.py`, which is not under src/.
-/

/-- Replies of the external world for one scenario.  `execReply` maps the
full command string handed to `exec_run` to its reply. -/
structure World where
  execReply : String → ExecReply
  /-- Modelled from the spec: `tar_tools.create_tar_from_filename`
  (not under src/) "encodes it as a single-entry archive"; it creates a
  local archive file and returns its name, or raises. -/
  tarCreate : Except PyExc String
  /-- Outcome of `container.put_archive` (external docker client):
  success, or a raised exception (daemon/connectivity failure). -/
  putOutcome : Except PyExc Unit
  /-- Outcome of `container.get_archive` (used by `download_files`). -/
  getArchiveOutcome : Except PyExc Unit
  /-- Outcome of `container.stop(timeout=10)` (used by `cleanup`). -/
  stopOutcome : Except PyExc Unit

/-- Python `str.strip()` (ASCII whitespace: space, tab, newline,
carriage return, form feed, vertical tab), used on the output of `pwd`
by `download_files`. -/
def pyStrip (s : String) : String :=
  let ws : List Char := [' ', '\t', '\n', '\x0d', '\x0c', '\x0b']
  String.mk (((s.data.dropWhile (ws.contains ·)).reverse.dropWhile
    (ws.contains ·)).reverse)

namespace DockerEnvironment

/-- `DockerEnvironment._execute` (docker_env.py lines 80-86): wraps the
command in `bash -lc '...'`, runs it, and returns the exit code together
with the combined output decoded with replacement.  Total: the decode
step cannot fail. -/
def pyExecute (w : World) (env : PyEnv) (command : String) : PyResult :=
  let answer := w.execReply (wrapCmd command)
  { returncode := answer.exitCode, output := decodeReplace answer.output }

/-- `DockerEnvironment.exists` (docker_env.py lines 150-156). -/
def pyExists (w : World) (env : PyEnv) (path : String) : Bool :=
  (pyExecute w env (testECmd path)).returncode = 0

/-- `DockerEnvironment.is_directory` (docker_env.py lines 158-161). -/
def is_directory (w : World) (env : PyEnv) (path : String) : Bool :=
  (pyExecute w env (testDCmd path)).returncode = 0

/-- `DockerEnvironment.read_file` (docker_env.py lines 207-210): runs
`cat {path}` and returns the decoded output field unconditionally — the
exit code of the reply is never consulted. -/
def read_file (w : World) (env : PyEnv) (path : String) : String :=
  (pyExecute w env (catCmd path)).output

/-- `DockerEnvironment.view_directory` (docker_env.py lines 212-214). -/
def view_directory (w : World) (env : PyEnv) (path : String) : String :=
  (pyExecute w env (lsCmd path)).output

/-- `DockerEnvironment.write_file` (docker_env.py lines 163-204),
returning (in order) the Python return value or raised exception, the
local temporary files still present on the host after the call, and the
runtime calls issued.  The transcription follows the source line by
line:

1. the content is written to `tmpfile-{t}.tmp` (local file appears);
2. `tar_tools.create_tar_from_filename` builds the archive (second
   local file appears) — if it raises, the exception propagates and the
   content file is left behind (`os.remove(tmp_file)` is on the next
   line, with no try/finally);
3. `os.remove(tmp_file)` deletes the content file;
4. `copy_file_to_container` calls `put_archive(..., "/tmp")` — if it
   raises, the exception propagates and the archive is left behind;
5. `os.remove(tar_name)` deletes the archive;
6. `self.execute(f"mv /tmp/{tmp_file} {path}")` is issued but its
   result is discarded;
7. the value returned is `copy_file_to_container`'s constant
   `{"returncode": 0, "output": ""}`, whatever the `mv` exit code was. -/
def write_file (w : World) (env : PyEnv) (t : Nat) (path content : String) :
    Except PyExc PyResult × List String × List RCall :=
  let tmp_file := tmpFileName t
  match w.tarCreate with
  | .error e => (.error e, [tmp_file], [])
  | .ok tar_name =>
    match w.putOutcome with
    | .error e =>
      (.error e, [tar_name], [.putArchive env.container_id "/tmp"])
    | .ok _ =>
      let res : PyResult := { returncode := 0, output := "" }
      (.ok res, [],
        [.putArchive env.container_id "/tmp",
         .execRun env.container_id (wrapCmd (mvCmd tmp_file path))])

/-- `DockerEnvironment.cleanup` (docker_env.py lines 140-144): always
asks the runtime to stop the container with a 10 second grace timeout.
The instance keeps no record of having been cleaned up — there is no
released flag to set, so the function's only effect is the stop call. -/
def cleanupCalls (env : PyEnv) : List RCall :=
  [.stop env.container_id 10]

/-- The operations a caller can invoke on an environment, for trace
reasoning over call sequences. -/
inductive Op where
  | execute (command : String) : Op
  | updateEnvVariables (vars : List (String × String)) : Op
  | saveCommand (command : String) : Op
  | downloadFiles : Op
  | copyFileToContainer (localPath containerPath : String) : Op
  | writeFile (t : Nat) (path content : String) : Op
  | readFile (path : String) : Op
  | viewDirectory (path : String) : Op
  | existsPath (path : String) : Op
  | isDirectory (path : String) : Op
  | cleanup : Op
deriving DecidableEq, Repr

/-- Runtime calls issued by one operation of `DockerEnvironment`
(the spawn-owning class). -/
def runOpCalls (w : World) (env : PyEnv) : Op → List RCall
  | .execute command => [.execRun env.container_id (wrapCmd command)]
  | .updateEnvVariables vars =>
    vars.map fun kv => .execRun env.container_id (wrapCmd (exportCmd kv.1 kv.2))
  | .saveCommand command => [.execRun env.container_id (wrapCmd (histCmd command))]
  | .downloadFiles =>
    let pwd := pyStrip (pyExecute w env "pwd").output
    [.execRun env.container_id (wrapCmd "pwd"), .getArchive env.container_id pwd]
  | .copyFileToContainer _ containerPath => [.putArchive env.container_id containerPath]
  | .writeFile t path content => (write_file w env t path content).2.2
  | .readFile path => [.execRun env.container_id (wrapCmd (catCmd path))]
  | .viewDirectory path => [.execRun env.container_id (wrapCmd (lsCmd path))]
  | .existsPath path => [.execRun env.container_id (wrapCmd (testECmd path))]
  | .isDirectory path => [.execRun env.container_id (wrapCmd (testDCmd path))]
  | .cleanup => cleanupCalls env

/-- Runtime calls of a whole operation sequence.  No operation mutates
the instance state (the code stores nothing but the container handle and
config), so the trace is the concatenation of the per-operation traces. -/
def runSeq (w : World) (env : PyEnv) (ops : List Op) : List RCall :=
  match ops with
  | [] => []
  | op :: rest => runOpCalls w env op ++ runSeq w env rest

end DockerEnvironment

namespace ExistingDockerEnvironment

/-- `ExistingDockerEnvironment.cleanup` (src/app/container.py lines
176-180): prints a message and returns — no runtime call of any kind,
in particular no stop. -/
def cleanupCalls (env : PyEnv) : List RCall := []

/-- Runtime calls issued by one operation of `ExistingDockerEnvironment`:
every method is inherited from `DockerEnvironment` except `cleanup`,
which is overridden to do nothing. -/
def runOpCalls (w : World) (env : PyEnv) : DockerEnvironment.Op → List RCall
  | .cleanup => cleanupCalls env
  | op => DockerEnvironment.runOpCalls w env op

/-- Runtime calls of a whole operation sequence on an attached
environment. -/
def runSeq (w : World) (env : PyEnv) (ops : List DockerEnvironment.Op) :
    List RCall :=
  match ops with
  | [] => []
  | op :: rest => runOpCalls w env op ++ runSeq w env rest

end ExistingDockerEnvironment

/-- Result of looking a container up in the runtime
(`client.containers.get` plus the reload that refreshes its status):
present with a live status string, absent, or a client/daemon error. -/
inductive ContainerLookup where
  | found (status : String) : ContainerLookup
  | missing : ContainerLookup
  | dockerError (msg : String) : ContainerLookup
deriving DecidableEq, Repr

/-- Outcome of `connect_to_existing_container` (src/app/container.py
lines 103-139).  The Python function reports every failure by printing a
branch-specific message and returning `None`; the constructors below
mirror those branches one-to-one (`notFound` for the
`docker.errors.NotFound` handler, `notRunning` for the status check,
`dockerError` for the `DockerException` handler). -/
inductive AttachOutcome where
  | connected (env : PyEnv) : AttachOutcome
  | notFound : AttachOutcome
  | notRunning (status : String) : AttachOutcome
  | dockerError (msg : String) : AttachOutcome
deriving DecidableEq, Repr

/-- `connect_to_existing_container(container_id)` (src/app/container.py
lines 103-139): gets the container by id, reloads it, refuses a
non-running status, and otherwise builds an `ExistingDockerEnvironment`
(whose constructor reloads once more).  Returns the outcome and the
trace of runtime calls issued. -/
def connect_to_existing_container (lookup : ContainerLookup)
    (container_id : String) : AttachOutcome × List RCall :=
  match lookup with
  | .missing => (.notFound, [.getContainer container_id])
  | .dockerError m => (.dockerError m, [.getContainer container_id])
  | .found status =>
    if status ≠ "running" then
      (.notRunning status, [.getContainer container_id, .reload container_id])
    else
      (.connected { container_id := container_id,
                    config := { image := "existing", cwd := "/tmp" } },
       [.getContainer container_id, .reload container_id,
        .reload container_id])

/-- Is a runtime call a provisioning call (`create` or `start`)? -/
def RCall.isProvision : RCall → Bool
  | .create _ _ => true
  | .start _ => true
  | _ => false

/-- Is a runtime call a stop request? -/
def RCall.isStop : RCall → Bool
  | .stop _ _ => true
  | _ => false

/-
## Port-request translation (src/app/container.py lines 45-78)
-/

/-- One entry of the list handed to `convert_port_list_to_dict`: the
dict `{"docker": ..., "local": ...}` (the Python key "local" is a Lean
keyword, hence the field name `localSpec`). -/
structure PortItem where
  docker : String
  localSpec : Option String
deriving DecidableEq, Repr

/-- A resolved host binding: `None` (auto-assign), a bare host port
`int(u)`, or the `(address, int(port))` tuple from a `"host:port"`
spec. -/
inductive PortBinding where
  | auto : PortBinding
  | hostPort (p : Int) : PortBinding
  | hostPair (address : String) (p : Int) : PortBinding
deriving DecidableEq, Repr

/-- A value of the resolved dict: a scalar binding, or the list that
accumulates when several requests target the same container port. -/
inductive PortDictVal where
  | single (v : PortBinding) : PortDictVal
  | multi (l : List PortBinding) : PortDictVal
deriving DecidableEq, Repr

/-- Python `str.isnumeric()` restricted to ASCII digits: true iff the
string is nonempty and all characters are digits (the inputs here are
port strings; non-ASCII numerics behave the same for the claims at
issue). -/
def pyIsNumeric (s : String) : Bool :=
  !s.data.isEmpty && s.data.all Char.isDigit

/-- Numeric value of an all-digit string (what Python `int(u)` returns
when `u.isnumeric()` holds). -/
def digitsToNat (s : String) : Nat :=
  s.data.foldl (fun acc c => acc * 10 + (c.toNat - 48)) 0

/-- Python `int(b)` on a string: optional surrounding ASCII whitespace,
an optional sign, then at least one digit; anything else raises
`ValueError`.  (Underscore digit separators are not modelled; no claim
involves them.) -/
def pyIntParse (s : String) : Option Int :=
  let t := (pyStrip s).data
  match t with
  | [] => none
  | c :: rest =>
    if c = '-' then
      if !rest.isEmpty && rest.all Char.isDigit then
        some (-(Int.ofNat (digitsToNat (String.mk rest))))
      else none
    else if c = '+' then
      if !rest.isEmpty && rest.all Char.isDigit then
        some (Int.ofNat (digitsToNat (String.mk rest)))
      else none
    else if t.all Char.isDigit then
      some (Int.ofNat (digitsToNat (String.mk t)))
    else none

/-- Characters before and after the first colon. -/
def breakAtColon : List Char → List Char × List Char
  | [] => ([], [])
  | c :: cs =>
    if c = ':' then ([], cs)
    else ((breakAtColon cs).1.cons c, (breakAtColon cs).2)

/-- `u.split(":", 1)` for a string containing a colon: the part before
the first colon and the rest. -/
def splitOnceColon (s : String) : String × String :=
  (String.mk (breakAtColon s.data).1, String.mk (breakAtColon s.data).2)

/-- Python `":" in u`. -/
def containsColon (s : String) : Bool :=
  s.data.contains ':'

/-- Resolution of one request's "local" value: the body of the loop of
`convert_port_list_to_dict` that computes `x` (src/app/container.py
lines 53-64).  `None` stays `None`; a spec containing a colon is split
once and its port part passed to `int` — which raises `ValueError` when
that part is not an integer literal; a numeric spec becomes `int(u)`;
anything else falls to the `else` branch, "set to none if not valid". -/
def resolveLocal : Option String → Except PyExc PortBinding
  | none => .ok .auto
  | some u =>
    if containsColon u then
      let ab := splitOnceColon u
      match pyIntParse ab.2 with
      | some n => .ok (.hostPair ab.1 n)
      | none => .error .valueError
    else if pyIsNumeric u then .ok (.hostPort (Int.ofNat (digitsToNat u)))
    else .ok .auto

/-- Insertion step of `convert_port_list_to_dict` (lines 66-74): a new
container port gets the scalar value; a port already bound to a list
appends; a port bound to a scalar is rebound, in place, to the two-element
list.  The association list preserves Python dict insertion order. -/
def insertPort (dic : List (String × PortDictVal)) (d : String)
    (x : PortBinding) : List (String × PortDictVal) :=
  match dic with
  | [] => [(d, .single x)]
  | (k, v) :: rest =>
    if k = d then
      match v with
      | .multi l => (k, .multi (l ++ [x])) :: rest
      | .single v0 => (k, .multi [v0, x]) :: rest
    else (k, v) :: insertPort rest d x

/-- Loop of `convert_port_list_to_dict` over the request list,
threading the dict; a `ValueError` raised by `int` aborts the whole
call. -/
def convertPortLoop (items : List PortItem)
    (dic : List (String × PortDictVal)) :
    Except PyExc (List (String × PortDictVal)) :=
  match items with
  | [] => .ok dic
  | item :: rest =>
    match resolveLocal item.localSpec with
    | .error e => .error e
    | .ok x => convertPortLoop rest (insertPort dic item.docker x)

/-- `convert_port_list_to_dict(port_lst)` (src/app/container.py lines
45-78). -/
def convert_port_list_to_dict (port_lst : List PortItem) :
    Except PyExc (List (String × PortDictVal)) :=
  convertPortLoop port_lst []

/-
## Shell-line parsing model (for the quoting behavior of `_execute`,
`exists` and `is_directory`)

The command string handed to `exec_run` is tokenized POSIX-style before
a process runs (the docker client splits a string command into an argv,
and the resulting `bash -lc script` run parses its script the same way).
The model below covers the quoting construct these code paths rely on —
the single quote, inside which every character is literal — plus
unquoted whitespace splitting.  A quote character toggles quoted mode
and is consumed, never emitted; a string ending in quoted mode has no
parse (unterminated quote).
-/

/-- Word splitter: `inQ` = inside single quotes, `started` = a word is
in progress (so that an empty quoted string still yields an empty
word), `cur` = characters of the word in progress, `acc` = completed
words. -/
def shWordsGo (inQ started : Bool) (cur : List Char) (acc : List String) :
    List Char → Option (List String)
  | [] =>
    if inQ then none
    else if started then some (acc ++ [String.mk cur])
    else some acc
  | c :: cs =>
    if c = '\'' then shWordsGo (!inQ) true cur acc cs
    else if !inQ && (c = ' ' || c = '\t') then
      if started then shWordsGo false false [] (acc ++ [String.mk cur]) cs
      else shWordsGo false false [] acc cs
    else shWordsGo inQ true (cur ++ [c]) acc cs

/-- Split a shell line into words (single-quote discipline). -/
def shWords (s : String) : Option (List String) :=
  shWordsGo false false [] [] s.data

example : shWords (wrapCmd "ls -la /tmp") = some ["bash", "-lc", "ls -la /tmp"] := by
  decide
example : shWords (wrapCmd "") = some ["bash", "-lc", ""] := by decide
example : shWords (wrapCmd (testECmd "/a")) = some ["bash", "-lc", "test -e /a"] := by
  decide
example : shWords (wrapCmd (testECmd "a'b'c")) =
    some ["bash", "-lc", "test -e abc"] := by decide
example : shWords (wrapCmd "echo 'x") = none := by decide

/-- No word produced by the splitter contains a single-quote character:
quotes only ever toggle the mode and are consumed. -/
lemma shWordsGo_no_quote (cs : List Char) :
    ∀ inQ started cur acc ws,
      shWordsGo inQ started cur acc cs = some ws →
      (∀ w ∈ acc, '\'' ∉ w.data) → '\'' ∉ cur →
      ∀ w ∈ ws, '\'' ∉ w.data := by
  induction cs with
  | nil =>
    intro inQ started cur acc ws h hacc hcur w hw
    simp only [shWordsGo] at h
    split_ifs at h with h1 h2
    · rcases Option.some.inj h with rfl
      rcases List.mem_append.mp hw with hw2 | hw2
      · exact hacc w hw2
      · rcases List.mem_singleton.mp hw2 with rfl
        exact hcur
    · rcases Option.some.inj h with rfl
      exact hacc w hw
  | cons c cs ih =>
    intro inQ started cur acc ws h hacc hcur w hw
    simp only [shWordsGo] at h
    split_ifs at h with h1 h2 h3
    · exact ih _ _ _ _ _ h hacc hcur w hw
    · refine ih _ _ _ _ _ h ?_ (by simp) w hw
      intro v hv
      rcases List.mem_append.mp hv with hv2 | hv2
      · exact hacc v hv2
      · rcases List.mem_singleton.mp hv2 with rfl
        exact hcur
    · exact ih _ _ _ _ _ h hacc (by simp) w hw
    · refine ih _ _ _ _ _ h hacc ?_ w hw
      intro hmem
      rcases List.mem_append.mp hmem with hm | hm
      · exact hcur hm
      · rcases List.mem_singleton.mp hm with rfl
        exact h1 rfl

/-- Words coming out of `shWords` never contain a single quote. -/
lemma shWords_no_quote (s : String) (ws : List String)
    (h : shWords s = some ws) : ∀ w ∈ ws, '\'' ∉ w.data := by
  refine shWordsGo_no_quote s.data false false [] [] ws h ?_ (by simp)
  intro w hw
  cases hw

/-- Inside single quotes, a run of quote-free characters is copied
verbatim into the word in progress. -/
lemma shWordsGo_quoted_run (l : List Char) :
    ∀ cur acc rest, '\'' ∉ l →
      shWordsGo true true cur acc (l ++ rest) =
        shWordsGo true true (cur ++ l) acc rest := by
  induction l with
  | nil => intro cur acc rest _; simp
  | cons c l ih =>
    intro cur acc rest h
    have hc : ¬(c = '\'') := fun hh => h (hh ▸ List.mem_cons_self c l)
    have hl : '\'' ∉ l := fun hm => h (List.mem_cons_of_mem c hm)
    simp only [List.cons_append, shWordsGo, hc, if_false, Bool.not_true,
      Bool.false_and, Bool.false_eq_true, if_neg, List.append_eq]
    rw [ih (cur ++ [c]) acc rest hl]
    simp

/-- Tokenizing the fixed wrapper prefix `bash -lc '` leaves the splitter
inside quotes with the two words `bash` and `-lc` emitted. -/
lemma shWordsGo_wrap_prefix (tail : List Char) :
    shWordsGo false false [] [] ("bash -lc '".data ++ tail) =
      shWordsGo true true [] ["bash", "-lc"] tail := rfl

/-- For a command with no single quote, the wrapped line tokenizes to
exactly `bash -lc ⟨command⟩`. -/
lemma shWords_wrapCmd_no_quote (command : String) (h : '\'' ∉ command.data) :
    shWords (wrapCmd command) = some ["bash", "-lc", command] := by
  unfold shWords wrapCmd
  have hdata : ("bash -lc '" ++ command ++ "'").data =
      "bash -lc '".data ++ (command.data ++ ['\'']) := by
    rw [String.data_append, String.data_append, List.append_assoc]
  rw [hdata, shWordsGo_wrap_prefix,
    shWordsGo_quoted_run command.data [] ["bash", "-lc"] ['\''] h]
  simp [shWordsGo]

/-
## Concrete fixtures for witnesses and counterexamples
-/

/-- Number of stop requests in a trace. -/
def countStops (tr : List RCall) : Nat :=
  tr.countP RCall.isStop

/-- ASCII text as its byte sequence (every character below 0x80 encodes
as its own code unit). -/
def asciiBytes (s : String) : List Nat :=
  s.data.map Char.toNat

/-- A sample owning environment. -/
def sampleEnv : PyEnv := { container_id := "c0" }

/-- A quiet world: every command succeeds with empty output, both local
archive steps succeed. -/
def sampleWorld : World where
  execReply := fun _ => { exitCode := 0, output := [] }
  tarCreate := .ok "tmpfile-0.tmp.tar"
  putOutcome := .ok ()
  getArchiveOutcome := .ok ()
  stopOutcome := .ok ()

/-- A world where every executed command fails with exit code 1 (in
particular the `mv` staging rename of `write_file`), while the archive
steps succeed. -/
def mvFailWorld : World where
  execReply := fun _ =>
    { exitCode := 1, output := asciiBytes "mv: cannot stat" }
  tarCreate := .ok "tmpfile-7.tmp.tar"
  putOutcome := .ok ()
  getArchiveOutcome := .ok ()
  stopOutcome := .ok ()

/-- A world where archive creation (`create_tar_from_filename`) raises. -/
def tarFailWorld : World where
  execReply := fun _ => { exitCode := 0, output := [] }
  tarCreate := .error (.ioError "no space left on device")
  putOutcome := .ok ()
  getArchiveOutcome := .ok ()
  stopOutcome := .ok ()

/-- A world where `put_archive` raises (daemon connection lost). -/
def putFailWorld : World where
  execReply := fun _ => { exitCode := 0, output := [] }
  tarCreate := .ok "tmpfile-7.tmp.tar"
  putOutcome := .error (.apiError "connection aborted")
  getArchiveOutcome := .ok ()
  stopOutcome := .ok ()

/-- A world where `cat /nope` fails with exit code 1 and the usual
error text on the combined stream; everything else succeeds. -/
def catFailWorld : World where
  execReply := fun c =>
    if c = wrapCmd (catCmd "/nope") then
      { exitCode := 1,
        output := asciiBytes "cat: /nope: No such file or directory" }
    else { exitCode := 0, output := [] }
  tarCreate := .ok "tmpfile-0.tmp.tar"
  putOutcome := .ok ()
  getArchiveOutcome := .ok ()
  stopOutcome := .ok ()

/-
## Helper lemmas for trace reasoning
-/

lemma countStops_append (l1 l2 : List RCall) :
    countStops (l1 ++ l2) = countStops l1 + countStops l2 :=
  List.countP_append _ _ _

lemma runSeq_append (w : World) (env : PyEnv)
    (ops1 ops2 : List DockerEnvironment.Op) :
    DockerEnvironment.runSeq w env (ops1 ++ ops2) =
      DockerEnvironment.runSeq w env ops1 ++ DockerEnvironment.runSeq w env ops2 := by
  induction ops1 with
  | nil => rfl
  | cons op rest ih =>
    simp only [List.cons_append, DockerEnvironment.runSeq, List.append_eq, ih,
      List.append_assoc]

/-- No single operation of the attach-mode environment records a stop
call: `cleanup` is overridden to do nothing and no inherited method
stops the container. -/
lemma existing_runOpCalls_no_stop (w : World) (env : PyEnv)
    (op : DockerEnvironment.Op) :
    countStops (ExistingDockerEnvironment.runOpCalls w env op) = 0 := by
  cases op with
  | updateEnvVariables vars =>
    simp only [ExistingDockerEnvironment.runOpCalls,
      DockerEnvironment.runOpCalls, countStops]
    rw [List.countP_map]
    simp [Function.comp_def, RCall.isStop]
  | writeFile t path content =>
    simp only [ExistingDockerEnvironment.runOpCalls,
      DockerEnvironment.runOpCalls]
    cases htar : w.tarCreate with
    | error e =>
      simp [DockerEnvironment.write_file, htar, countStops]
    | ok tar =>
      cases hput : w.putOutcome with
      | error e =>
        simp [DockerEnvironment.write_file, htar, hput, countStops, RCall.isStop]
      | ok u =>
        simp [DockerEnvironment.write_file, htar, hput, countStops, RCall.isStop]
  | _ =>
    simp [ExistingDockerEnvironment.runOpCalls,
      ExistingDockerEnvironment.cleanupCalls,
      DockerEnvironment.runOpCalls, countStops, RCall.isStop]

/-
## Claim theorems
-/

/-- C1 (counterexample): the claim "release() called twice issues at most
one stop request" is false on the code: `DockerEnvironment.cleanup` calls
`container.stop(timeout=10)` unconditionally and keeps no released flag,
so two `cleanup()` calls on the owning environment with id "c0" record
two stop requests. -/
theorem cleanup_twice_issues_two_stops :
    ¬(countStops (DockerEnvironment.runSeq sampleWorld sampleEnv
        [DockerEnvironment.Op.cleanup, DockerEnvironment.Op.cleanup]) ≤ 1) := by
  decide

/-- C1 (amended): each call to `cleanup()` on an owning environment
issues exactly one stop request with the 10 second grace timeout — `n`
calls issue `n` stop requests; there is no released state, so repeated
calls repeat the stop instead of being no-ops. -/
theorem cleanup_stops_once_per_call (w : World) (env : PyEnv) (n : Nat) :
    DockerEnvironment.runSeq w env
        (List.replicate n DockerEnvironment.Op.cleanup) =
      List.replicate n (RCall.stop env.container_id 10) := by
  induction n with
  | zero => rfl
  | succ n ih =>
    simp only [List.replicate_succ, DockerEnvironment.runSeq,
      DockerEnvironment.runOpCalls, DockerEnvironment.cleanupCalls, ih,
      List.singleton_append]

/-- C2: an attached (non-owning) `ExistingDockerEnvironment` never
records a stop call: its overridden `cleanup` performs no runtime
action, and no inherited operation stops the container, so any operation
sequence ending in `cleanup` has zero stop requests in its trace. -/
theorem attached_cleanup_never_stops (w : World) (env : PyEnv)
    (ops : List DockerEnvironment.Op) :
    countStops (ExistingDockerEnvironment.runSeq w env
        (ops ++ [DockerEnvironment.Op.cleanup])) = 0 := by
  induction ops with
  | nil =>
    simp [ExistingDockerEnvironment.runSeq,
      ExistingDockerEnvironment.runOpCalls,
      ExistingDockerEnvironment.cleanupCalls, countStops]
  | cons op rest ih =>
    simp only [List.cons_append, ExistingDockerEnvironment.runSeq,
      countStops_append, List.append_eq, ih, Nat.add_zero]
    exact existing_runOpCalls_no_stop w env op

/-- The consequence of claim C6 under test: if every operation after
`release()` failed with `ExecutionError`, a post-cleanup `execute` would
never reach the runtime, so the trace of `[cleanup, execute cmd]` would
contain only the stop request. -/
def postReleaseOpsFail : Prop :=
  ∀ (w : World) (env : PyEnv) (command : String),
    DockerEnvironment.runSeq w env
        [DockerEnvironment.Op.cleanup, DockerEnvironment.Op.execute command] =
      [RCall.stop env.container_id 10]

/-- C6 (counterexample): operations after `cleanup()` do not fail — the
code has no released state and no guard, so an `execute` issued after
`cleanup` is still forwarded to the runtime (the trace contains the
exec_run call after the stop). -/
theorem post_release_execute_reaches_runtime : ¬postReleaseOpsFail := by
  intro h
  exact absurd (h sampleWorld sampleEnv "ls") (by decide)

/-- C6 (amended): `cleanup()` is not a terminal state transition: it
inserts exactly one stop request into the trace, and the operations
following it are forwarded to the runtime exactly as they would have
been without the cleanup (no guard, no `ExecutionError`, no released
flag). -/
theorem cleanup_is_not_terminal (w : World) (env : PyEnv)
    (ops1 ops2 : List DockerEnvironment.Op) :
    DockerEnvironment.runSeq w env
        (ops1 ++ DockerEnvironment.Op.cleanup :: ops2) =
      DockerEnvironment.runSeq w env ops1 ++
        RCall.stop env.container_id 10 :: DockerEnvironment.runSeq w env ops2 := by
  rw [show (ops1 ++ DockerEnvironment.Op.cleanup :: ops2) =
      ops1 ++ [DockerEnvironment.Op.cleanup] ++ ops2 by simp,
    runSeq_append, runSeq_append]
  simp [DockerEnvironment.runSeq, DockerEnvironment.runOpCalls,
    DockerEnvironment.cleanupCalls]

/-- C3 (counterexample): `write_file` does not fail when the in-sandbox
move step fails.  In a world where every executed command (including the
`mv /tmp/tmpfile-7.tmp /data/out.txt` staging rename) exits with code 1,
`write_file` still returns the success value `{"returncode": 0,
"output": ""}` — the result of the `mv` execute call is discarded. -/
theorem write_file_ok_despite_mv_failure :
    (mvFailWorld.execReply
        (wrapCmd (mvCmd (tmpFileName 7) "/data/out.txt"))).exitCode = 1 ∧
    (DockerEnvironment.write_file mvFailWorld sampleEnv 7
        "/data/out.txt" "hello").1 =
      .ok { returncode := 0, output := "" } := by
  exact ⟨rfl, rfl⟩

/-- C3 (amended): `write_file` propagates the underlying exception when
the archive-creation step or the archive transfer (`put_archive`) step
raises, and returns the constant success value whenever the transfer
succeeded — regardless of whether the final in-sandbox move succeeded;
there is no dedicated `WriteError` and the move's exit code is never
checked. -/
theorem write_file_error_propagation (w : World) (env : PyEnv) (t : Nat)
    (path content : String) :
    (∀ e, w.tarCreate = .error e →
      (DockerEnvironment.write_file w env t path content).1 = .error e) ∧
    (∀ tar e, w.tarCreate = .ok tar → w.putOutcome = .error e →
      (DockerEnvironment.write_file w env t path content).1 = .error e) ∧
    (∀ tar, w.tarCreate = .ok tar → w.putOutcome = .ok () →
      (DockerEnvironment.write_file w env t path content).1 =
        .ok { returncode := 0, output := "" }) := by
  refine ⟨fun e he => ?_, fun tar e htar hput => ?_, fun tar htar hput => ?_⟩
  · simp [DockerEnvironment.write_file, he]
  · simp [DockerEnvironment.write_file, htar, hput]
  · simp [DockerEnvironment.write_file, htar, hput]

/-- C3 (witness for the amended theorem): concrete instantiations — the
archive-creation failure and the transfer failure both surface as the
raised exception. -/
theorem write_file_error_propagation_witness :
    (tarFailWorld.tarCreate = .error (.ioError "no space left on device") ∧
      (DockerEnvironment.write_file tarFailWorld sampleEnv 0 "/p" "c").1 =
        .error (.ioError "no space left on device")) ∧
    (putFailWorld.tarCreate = .ok "tmpfile-7.tmp.tar" ∧
      putFailWorld.putOutcome = .error (.apiError "connection aborted") ∧
      (DockerEnvironment.write_file putFailWorld sampleEnv 7 "/p" "c").1 =
        .error (.apiError "connection aborted")) :=
  ⟨⟨by decide,
    (write_file_error_propagation tarFailWorld sampleEnv 0 "/p" "c").1
      (.ioError "no space left on device") (by decide)⟩,
   ⟨by decide, by decide,
    (write_file_error_propagation putFailWorld sampleEnv 7 "/p" "c").2.1
      "tmpfile-7.tmp.tar" (.apiError "connection aborted")
      (by decide) (by decide)⟩⟩

/-- C4 (counterexample): `write_file`'s local temporaries are not
cleaned up on every exit path.  When `put_archive` raises, the archive
file created by `create_tar_from_filename` is left behind on the host
(`os.remove(tar_name)` is only reached on the success path — there is
no try/finally). -/
theorem write_file_leaks_archive_on_put_failure :
    (DockerEnvironment.write_file putFailWorld sampleEnv 7 "/x" "c").2.1 =
      ["tmpfile-7.tmp.tar"] ∧
    ¬((DockerEnvironment.write_file putFailWorld sampleEnv 7 "/x" "c").2.1 = []) := by
  exact ⟨rfl, by decide⟩

/-- C4 (amended): the local temporaries of `write_file` are removed only
along the path actually taken: on full success nothing is left behind;
if archive creation raises, the materialized content file
`tmpfile-{t}.tmp` remains; if the transfer raises, the archive file
remains. -/
theorem write_file_temp_cleanup_by_path (w : World) (env : PyEnv) (t : Nat)
    (path content : String) :
    (∀ tar, w.tarCreate = .ok tar → w.putOutcome = .ok () →
      (DockerEnvironment.write_file w env t path content).2.1 = []) ∧
    (∀ e, w.tarCreate = .error e →
      (DockerEnvironment.write_file w env t path content).2.1 =
        [tmpFileName t]) ∧
    (∀ tar e, w.tarCreate = .ok tar → w.putOutcome = .error e →
      (DockerEnvironment.write_file w env t path content).2.1 = [tar]) := by
  refine ⟨fun tar htar hput => ?_, fun e he => ?_, fun tar e htar hput => ?_⟩
  · simp [DockerEnvironment.write_file, htar, hput]
  · simp [DockerEnvironment.write_file, he]
  · simp [DockerEnvironment.write_file, htar, hput]

/-- C4 (witness for the amended theorem): on the all-success world the
call leaves no temporary behind, and on the archive-creation-failure
world the content file remains. -/
theorem write_file_temp_cleanup_by_path_witness :
    (sampleWorld.tarCreate = .ok "tmpfile-0.tmp.tar" ∧
      sampleWorld.putOutcome = .ok () ∧
      (DockerEnvironment.write_file sampleWorld sampleEnv 0 "/p" "c").2.1 = []) ∧
    (tarFailWorld.tarCreate = .error (.ioError "no space left on device") ∧
      (DockerEnvironment.write_file tarFailWorld sampleEnv 3 "/p" "c").2.1 =
        [tmpFileName 3]) :=
  ⟨⟨by decide, by decide,
    (write_file_temp_cleanup_by_path sampleWorld sampleEnv 0 "/p" "c").1
      "tmpfile-0.tmp.tar" (by decide) (by decide)⟩,
   ⟨by decide,
    (write_file_temp_cleanup_by_path tarFailWorld sampleEnv 3 "/p" "c").2.1
      (.ioError "no space left on device") (by decide)⟩⟩

/-- C5: `connect_to_existing_container` fails with the not-found outcome
when the sandbox is absent, fails with the not-running outcome (carrying
the live status) when the re-read status is anything but "running", and
— whatever the lookup result — never issues a create or start call to
the runtime.  (The Python function reports both failures by printing a
branch-specific message and returning `None`; the outcome constructors
mirror those branches.) -/
theorem connect_failure_modes_no_provision (container_id : String) :
    ((connect_to_existing_container .missing container_id).1 =
      AttachOutcome.notFound) ∧
    (∀ st, st ≠ "running" →
      (connect_to_existing_container (.found st) container_id).1 =
        AttachOutcome.notRunning st) ∧
    (∀ lookup, ∀ c ∈ (connect_to_existing_container lookup container_id).2,
      c.isProvision = false) := by
  refine ⟨rfl, fun st hst => ?_, fun lookup c hc => ?_⟩
  · simp [connect_to_existing_container, hst]
  · cases lookup with
    | missing =>
      simp only [connect_to_existing_container, List.mem_singleton] at hc
      subst hc; rfl
    | dockerError m =>
      simp only [connect_to_existing_container, List.mem_singleton] at hc
      subst hc; rfl
    | found st =>
      simp only [connect_to_existing_container] at hc
      split_ifs at hc <;> simp only [List.mem_cons, List.mem_singleton,
        List.not_mem_nil, or_false] at hc <;>
        rcases hc with rfl | rfl | rfl <;> rfl

/-- C5 (witness): concrete attach attempts — a missing container id, an
exited container, and the absence of provisioning calls on the missing
branch. -/
theorem connect_failure_modes_no_provision_witness :
    ((connect_to_existing_container .missing "deadbeef").1 =
      AttachOutcome.notFound) ∧
    ("exited" ≠ "running" ∧
      (connect_to_existing_container (.found "exited") "deadbeef").1 =
        AttachOutcome.notRunning "exited") ∧
    (RCall.getContainer "deadbeef" ∈
        (connect_to_existing_container .missing "deadbeef").2 ∧
      (RCall.getContainer "deadbeef").isProvision = false) :=
  ⟨(connect_failure_modes_no_provision "deadbeef").1,
   ⟨by decide,
    (connect_failure_modes_no_provision "deadbeef").2.1 "exited" (by decide)⟩,
   ⟨by decide,
    (connect_failure_modes_no_provision "deadbeef").2.2 .missing
      (RCall.getContainer "deadbeef") (by decide)⟩⟩

/-- C7: the two documented port-translation examples hold — repeated
requests for the same container port accumulate in order into a list,
and an absent host spec resolves to `None` — but the general claim
"an absent or unparseable host spec resolves to auto-assign" is broken
by the code for a spec that contains a colon whose port segment is not
an integer literal: `int("x")` raises `ValueError` instead of falling
through to the `# Set to none if not valid` branch. -/
theorem convert_port_examples_and_colon_valueerror :
    convert_port_list_to_dict
        [{ docker := "80", localSpec := some "8080" },
         { docker := "80", localSpec := some "8081" }] =
      .ok [("80", PortDictVal.multi [.hostPort 8080, .hostPort 8081])] ∧
    convert_port_list_to_dict [{ docker := "443", localSpec := none }] =
      .ok [("443", PortDictVal.single .auto)] ∧
    convert_port_list_to_dict
        [{ docker := "80", localSpec := some "host:x" }] =
      .error .valueError := by
  exact ⟨by decide, by decide, by decide⟩

/-- C8: `execute` returns the runtime's exit code together with the
combined output decoded permissively — the result is total (no decode
error path exists) and, for every byte sequence whatsoever, the decoder
yields only Unicode scalar values, replacing every invalid subsequence
with U+FFFD. -/
theorem execute_returns_exit_code_and_replaced_decode :
    (∀ (w : World) (env : PyEnv) (command : String),
      DockerEnvironment.pyExecute w env command =
        { returncode := (w.execReply (wrapCmd command)).exitCode,
          output := decodeReplace ((w.execReply (wrapCmd command)).output) }) ∧
    (∀ bs : List Nat, ∀ c ∈ utf8DecodeReplace bs, isScalar c) :=
  ⟨fun _ _ _ => rfl, fun bs => utf8DecodeReplace_scalar bs⟩

/-- C8 (witness): the decoder applied to the lone invalid byte 0xFF
emits the replacement character, which is a Unicode scalar value. -/
theorem execute_returns_exit_code_and_replaced_decode_witness :
    (0xFFFD ∈ utf8DecodeReplace [0xFF]) ∧ isScalar 0xFFFD :=
  ⟨by decide,
   execute_returns_exit_code_and_replaced_decode.2 [0xFF] 0xFFFD (by decide)⟩

/-- C9 (counterexample): when the content-dump command fails,
`read_file` does not fail — it returns the decoded combined output,
i.e. the error message text, as if it were file content.  Concretely:
`cat /nope` exits with code 1 and `read_file` hands back
"cat: /nope: No such file or directory". -/
theorem read_file_returns_cat_error_text :
    (catFailWorld.execReply (wrapCmd (catCmd "/nope"))).exitCode = 1 ∧
    DockerEnvironment.read_file catFailWorld sampleEnv "/nope" =
      "cat: /nope: No such file or directory" := by
  exact ⟨by decide, by decide⟩

/-- C9 (amended): `read_file` returns the decoded combined output of
`cat {path}` unconditionally — the exit code of the reply is never
consulted, so a failed `cat` yields its error text as the "content" and
no `ReadError` exists. -/
theorem read_file_ignores_exit_code (w : World) (env : PyEnv)
    (path : String) :
    DockerEnvironment.read_file w env path =
      decodeReplace ((w.execReply (wrapCmd (catCmd path))).output) := rfl

/-- C10: the shell lines built by `_execute`, `exists` and
`is_directory` embed the caller's string between single quotes with no
escaping.  For every argument containing a single quote the constructed
line no longer tokenizes to the intended command: the wrapped `execute`
line does not parse as `bash -lc ⟨command⟩`, and whatever script the
wrapped `test` line does hand to the shell, that script cannot tokenize
to `test -e ⟨path⟩` (resp. `test -d ⟨path⟩`) because quote characters
are consumed as delimiters and never appear in parsed words.  For an
argument free of single quotes, the `execute` wrapper parses exactly as
intended. -/
theorem single_quote_breaks_constructed_line (arg : String) :
    ('\'' ∈ arg.data →
      shWords (wrapCmd arg) ≠ some ["bash", "-lc", arg] ∧
      (∀ s, shWords (wrapCmd (testECmd arg)) = some ["bash", "-lc", s] →
        shWords s ≠ some ["test", "-e", arg]) ∧
      (∀ s, shWords (wrapCmd (testDCmd arg)) = some ["bash", "-lc", s] →
        shWords s ≠ some ["test", "-d", arg])) ∧
    ('\'' ∉ arg.data →
      shWords (wrapCmd arg) = some ["bash", "-lc", arg]) := by
  constructor
  · intro h
    refine ⟨fun heq => ?_, fun s _ heq => ?_, fun s _ heq => ?_⟩
    · exact shWords_no_quote _ _ heq arg (by simp) h
    · exact shWords_no_quote _ _ heq arg (by simp) h
    · exact shWords_no_quote _ _ heq arg (by simp) h
  · exact shWords_wrapCmd_no_quote arg

/-- C10 (witness): for the path `a'b'c` the `exists` line tokenizes to
the script `test -e abc` — not the intended test of `a'b'c` — while the
quote-free command `pwd` round-trips exactly. -/
theorem single_quote_breaks_constructed_line_witness :
    ('\'' ∈ "a'b'c".data ∧
      shWords (wrapCmd "a'b'c") ≠ some ["bash", "-lc", "a'b'c"] ∧
      (shWords (wrapCmd (testECmd "a'b'c")) =
          some ["bash", "-lc", "test -e abc"] ∧
        shWords "test -e abc" ≠ some ["test", "-e", "a'b'c"])) ∧
    ('\'' ∉ "pwd".data ∧
      shWords (wrapCmd "pwd") = some ["bash", "-lc", "pwd"]) :=
  ⟨⟨by decide,
    ((single_quote_breaks_constructed_line "a'b'c").1 (by decide)).1,
    ⟨by decide,
     ((single_quote_breaks_constructed_line "a'b'c").1 (by decide)).2.1
       "test -e abc" (by decide)⟩⟩,
   ⟨by decide,
    (single_quote_breaks_constructed_line "pwd").2 (by decide)⟩⟩
